import Mathlib

/-
Verification of the game backend's simulation and transaction engine.

The Rust source is shallowly embedded: each Lean definition mirrors one
Rust function (service or repository layer), machine integers (i32/i64)
are modelled as Int, with the wrapping `as i32` cast made explicit as
toI32 at the places the source performs it.  Database rows become plain
structures, tables become lists, and SQL statements become pure functions
on them; a conditional UPDATE (`WHERE col >= $n`) becomes an Option.
UUIDs are modelled as Nat (Uuid::nil() is 0) and UTC instants as Int
(seconds).  Where the source computes a quantity through f64 and
truncates back to an integer, the embedding either reproduces the exact
integer value (when the float arithmetic is exact at the relevant
magnitudes) or abstracts the truncated result as an integer parameter,
as documented on the definition.
-/

namespace Ivory

/-- Rust `as i32` on an i64 value: two's-complement truncation to 32 bits. -/
def toI32 (n : Int) : Int :=
  (n + 2 ^ 31) % 2 ^ 32 - 2 ^ 31

theorem toI32_eq_self {n : Int} (h1 : -2 ^ 31 ≤ n) (h2 : n < 2 ^ 31) : toI32 n = n := by
  unfold toI32
  omega

/-- Resource kinds traded on the market (models/trade.rs TradeResourceType). -/
inductive TradeResourceType
  | Wood
  | Clay
  | Iron
  | Crop
  deriving DecidableEq, Repr

/-- Order side (models/trade.rs TradeOrderType). -/
inductive TradeOrderType
  | Buy
  | Sell
  deriving DecidableEq, Repr

/-- Order state machine (models/trade.rs TradeOrderStatus). -/
inductive TradeOrderStatus
  | Open
  | PartiallyFilled
  | Filled
  | Cancelled
  | Expired
  deriving DecidableEq, Repr

/-- Village row: owner, four resource amounts, storage caps, population and
the resource catch-up timestamp (models/village.rs, absent from src; fields
reconstructed from every access the services under src make to them). -/
structure Village where
  id : Nat
  userId : Nat
  wood : Int
  clay : Int
  iron : Int
  crop : Int
  warehouseCapacity : Int
  granaryCapacity : Int
  population : Int
  resourcesUpdatedAt : Int
  deriving DecidableEq, Repr

/-- Trade order row (models/trade.rs TradeOrder), times as Int seconds. -/
structure TradeOrder where
  id : Nat
  userId : Nat
  villageId : Nat
  orderType : TradeOrderType
  resourceType : TradeResourceType
  quantity : Int
  quantityFilled : Int
  pricePerUnit : Int
  status : TradeOrderStatus
  expiresAt : Option Int
  deriving DecidableEq, Repr

/-- TradeOrder::quantity_remaining. -/
def TradeOrder.quantityRemaining (o : TradeOrder) : Int :=
  o.quantity - o.quantityFilled

/-- TradeOrder::can_cancel. -/
def TradeOrder.canCancel (o : TradeOrder) : Bool :=
  o.status = TradeOrderStatus.Open || o.status = TradeOrderStatus.PartiallyFilled

/-- TradeOrder::can_fill. -/
def TradeOrder.canFill (o : TradeOrder) : Bool :=
  (o.status = TradeOrderStatus.Open || o.status = TradeOrderStatus.PartiallyFilled)
    && o.quantityRemaining > 0

/-- TradeOrder::is_expired at a reference instant (source reads Utc::now()). -/
def TradeOrder.isExpired (o : TradeOrder) (now : Int) : Bool :=
  match o.expiresAt with
  | some e => e < now
  | none => false

/-- Resource lock (escrow) row (models/trade.rs ResourceLock). -/
structure ResourceLock where
  id : Nat
  villageId : Nat
  lockType : String
  referenceId : Nat
  wood : Int
  clay : Int
  iron : Int
  crop : Int
  releasedAt : Option Int
  deriving DecidableEq, Repr

/-- The WHERE clause shared by get_resource_lock and release_resource_lock:
lock_type = $1 AND reference_id = $2 AND released_at IS NULL. -/
def lockActiveFor (l : ResourceLock) (lt : String) (ref : Nat) : Bool :=
  l.lockType = lt && l.referenceId = ref && l.releasedAt = none

/-- TradeRepository::release_resource_lock(_tx): UPDATE resource_locks SET
released_at = NOW() WHERE lock_type AND reference_id AND released_at IS NULL
RETURNING *, fetched with fetch_optional (first updated row or none).
Returns the fetched row and the table afterwards. -/
def releaseResourceLock (locks : List ResourceLock) (lt : String) (ref : Nat)
    (now : Int) : Option ResourceLock × List ResourceLock :=
  (((locks.filter (fun l => lockActiveFor l lt ref)).head?).map
      (fun l => { l with releasedAt := some now }),
    locks.map (fun l =>
      if lockActiveFor l lt ref then { l with releasedAt := some now } else l))

/-- One summand of TradeRepository::get_village_locked_resources: the amount
of one resource the given lock contributes when it is active and belongs to
the village (SUM ... WHERE village_id = $1 AND released_at IS NULL). -/
def lockContribution (l : ResourceLock) (villageId : Nat)
    (rt : TradeResourceType) : Int :=
  if l.villageId = villageId && l.releasedAt = none then
    match rt with
    | TradeResourceType.Wood => l.wood
    | TradeResourceType.Clay => l.clay
    | TradeResourceType.Iron => l.iron
    | TradeResourceType.Crop => l.crop
  else 0

/-- TradeRepository::get_village_locked_resources(_tx), restricted to the one
resource column the caller then selects. -/
def lockedResource (locks : List ResourceLock) (villageId : Nat)
    (rt : TradeResourceType) : Int :=
  (locks.map (fun l => lockContribution l villageId rt)).sum

/-- TradeService::get_village_resource. -/
def getVillageResource (v : Village) (rt : TradeResourceType) : Int :=
  match rt with
  | TradeResourceType.Wood => v.wood
  | TradeResourceType.Clay => v.clay
  | TradeResourceType.Iron => v.iron
  | TradeResourceType.Crop => v.crop

/-- TradeService::add_resource_to_village: UPDATE villages SET col =
LEAST(col + $2, cap) where cap is granary_capacity for crop and
warehouse_capacity otherwise. -/
def addResourceToVillage (v : Village) (rt : TradeResourceType)
    (amount : Int) : Village :=
  match rt with
  | TradeResourceType.Wood =>
    { v with wood := min (v.wood + amount) v.warehouseCapacity }
  | TradeResourceType.Clay =>
    { v with clay := min (v.clay + amount) v.warehouseCapacity }
  | TradeResourceType.Iron =>
    { v with iron := min (v.iron + amount) v.warehouseCapacity }
  | TradeResourceType.Crop =>
    { v with crop := min (v.crop + amount) v.granaryCapacity }

/-- TradeService::deduct_resource_from_village: UPDATE villages SET col =
col - $2 WHERE id = $1 AND col >= $2; zero rows affected is an error. -/
def deductResourceFromVillage (v : Village) (rt : TradeResourceType)
    (amount : Int) : Option Village :=
  match rt with
  | TradeResourceType.Wood =>
    if amount ≤ v.wood then some { v with wood := v.wood - amount } else none
  | TradeResourceType.Clay =>
    if amount ≤ v.clay then some { v with clay := v.clay - amount } else none
  | TradeResourceType.Iron =>
    if amount ≤ v.iron then some { v with iron := v.iron - amount } else none
  | TradeResourceType.Crop =>
    if amount ≤ v.crop then some { v with crop := v.crop - amount } else none

/-- Resource-engine catch-up write-back, the tail of
ResourceService::update_village_resources.  The four produced amounts are
the integers obtained in the source by truncating f64 products
(rate_per_hour * hours_elapsed) as i32; the claim-relevant clamp logic is
independent of their values, so they are taken as parameters.  When
elapsed_seconds <= 0 the source returns the village unchanged; otherwise
each non-crop resource becomes (old + produced).min(warehouse_capacity)
.max(0), crop analogously against granary_capacity, and
resources_updated_at is set to now. -/
def updateVillageResources (v : Village) (now : Int)
    (woodProduced clayProduced ironProduced cropChange : Int) : Village :=
  if now - v.resourcesUpdatedAt ≤ 0 then v
  else
    { v with
      wood := max (min (v.wood + woodProduced) v.warehouseCapacity) 0
      clay := max (min (v.clay + clayProduced) v.warehouseCapacity) 0
      iron := max (min (v.iron + ironProduced) v.warehouseCapacity) 0
      crop := max (min (v.crop + cropChange) v.granaryCapacity) 0
      resourcesUpdatedAt := now }

/-- Claim C3: after the resource engine's catch-up write-back (which happens
exactly when some positive time has elapsed), wood, clay and iron each lie in
[0, warehouse_capacity] and crop lies in [0, granary_capacity]; accrual that
would exceed a cap stores exactly the cap, and a net-negative crop change
that would take crop below zero stores exactly 0. -/
theorem resource_catchup_bounds (v : Village) (now wp cp ip cc : Int)
    (helapsed : 0 < now - v.resourcesUpdatedAt)
    (hw : 0 ≤ v.warehouseCapacity) (hg : 0 ≤ v.granaryCapacity) :
    (0 ≤ (updateVillageResources v now wp cp ip cc).wood ∧
      (updateVillageResources v now wp cp ip cc).wood ≤ v.warehouseCapacity) ∧
    (0 ≤ (updateVillageResources v now wp cp ip cc).clay ∧
      (updateVillageResources v now wp cp ip cc).clay ≤ v.warehouseCapacity) ∧
    (0 ≤ (updateVillageResources v now wp cp ip cc).iron ∧
      (updateVillageResources v now wp cp ip cc).iron ≤ v.warehouseCapacity) ∧
    (0 ≤ (updateVillageResources v now wp cp ip cc).crop ∧
      (updateVillageResources v now wp cp ip cc).crop ≤ v.granaryCapacity) ∧
    (v.warehouseCapacity ≤ v.wood + wp →
      (updateVillageResources v now wp cp ip cc).wood = v.warehouseCapacity) ∧
    (v.crop + cc ≤ 0 →
      (updateVillageResources v now wp cp ip cc).crop = 0) := by
  unfold updateVillageResources
  have hne : ¬ (now - v.resourcesUpdatedAt ≤ 0) := by omega
  simp only [hne, if_false]
  refine ⟨⟨?_, ?_⟩, ⟨?_, ?_⟩, ⟨?_, ?_⟩, ⟨?_, ?_⟩, ?_, ?_⟩ <;> omega

/-- Witness for claim C3 at a concrete village: 790 wood, warehouse 800, 30
produced (spec scenario 5) caps at exactly 800, and a crop drain below zero
stores 0. -/
theorem resource_catchup_bounds_witness :
    (0 < (3600 : Int) - 0 ∧ 0 ≤ (800 : Int) ∧ 0 ≤ (800 : Int)) ∧
    (updateVillageResources
        { id := 1, userId := 1, wood := 790, clay := 0, iron := 0, crop := 50,
          warehouseCapacity := 800, granaryCapacity := 800, population := 0,
          resourcesUpdatedAt := 0 } 3600 30 0 0 (-80)).wood = 800 ∧
    (updateVillageResources
        { id := 1, userId := 1, wood := 790, clay := 0, iron := 0, crop := 50,
          warehouseCapacity := 800, granaryCapacity := 800, population := 0,
          resourcesUpdatedAt := 0 } 3600 30 0 0 (-80)).crop = 0 := by
  refine ⟨by decide, ?_, ?_⟩
  · exact (resource_catchup_bounds
      { id := 1, userId := 1, wood := 790, clay := 0, iron := 0, crop := 50,
        warehouseCapacity := 800, granaryCapacity := 800, population := 0,
        resourcesUpdatedAt := 0 } 3600 30 0 0 (-80)
      (by decide) (by decide) (by decide)).2.2.2.2.1 (by decide)
  · exact (resource_catchup_bounds
      { id := 1, userId := 1, wood := 790, clay := 0, iron := 0, crop := 50,
        warehouseCapacity := 800, granaryCapacity := 800, population := 0,
        resourcesUpdatedAt := 0 } 3600 30 0 0 (-80)
      (by decide) (by decide) (by decide)).2.2.2.2.2 (by decide)

/-- TradeService::validate_create_order_request: quantity in [100, 1_000_000],
price in [1, 10_000], expiry hours in [1, 168] when given. -/
def validateCreateOrderRequest (quantity pricePerUnit : Int)
    (expiresInHours : Option Int) : Bool :=
  100 ≤ quantity && quantity ≤ 1000000 && 1 ≤ pricePerUnit
    && pricePerUnit ≤ 10000
    && (match expiresInHours with
        | some h => 1 ≤ h && h ≤ 168
        | none => true)

/-- TradeService::calculate_order_status. -/
def calculateOrderStatus (quantity quantityFilled : Int) : TradeOrderStatus :=
  if quantity ≤ quantityFilled then TradeOrderStatus.Filled
  else if 0 < quantityFilled then TradeOrderStatus.PartiallyFilled
  else TradeOrderStatus.Open

/-- Lock type tag for trade orders (trade_service.rs LOCK_TYPE_TRADE_ORDER). -/
def lockTypeTradeOrder : String := "trade_order"

/-- Committed market state touched by sell-order creation: the trade_orders
and resource_locks tables. -/
structure MarketState where
  orders : List TradeOrder
  locks : List ResourceLock
  deriving DecidableEq, Repr

/-- TradeService::create_sell_order, with its two INSERTs made explicit.
The source begins a DB transaction, but TradeRepository::create_order is
invoked with the POOL handle, so the order INSERT commits on its own,
outside the transaction; only create_resource_lock_tx runs inside it.
lockInsertFails injects a failure of the lock INSERT: the transaction is
then rolled back (the lock row is discarded) while the already committed
order row stays.  The order-count limit and village-ownership checks of
create_order, which precede this function and touch none of the claimed
state, are elided.  Returns the created order (none on any error) and the
committed state afterwards. -/
def createSellOrder (st : MarketState) (userId : Nat) (village : Village)
    (rt : TradeResourceType) (quantity pricePerUnit : Int)
    (expiresInHours : Option Int) (now : Int) (newOrderId : Nat)
    (lockInsertFails : Bool) : Option TradeOrder × MarketState :=
  if ¬ validateCreateOrderRequest quantity pricePerUnit expiresInHours then
    (none, st)
  else
    -- validate_sell_order_resources: available net of active locks
    let available := getVillageResource village rt
    let locked := lockedResource st.locks village.id rt
    if available - locked < quantity then (none, st)
    else
      let order : TradeOrder :=
        { id := newOrderId, userId := userId, villageId := village.id,
          orderType := TradeOrderType.Sell, resourceType := rt,
          quantity := quantity, quantityFilled := 0,
          pricePerUnit := pricePerUnit, status := TradeOrderStatus.Open,
          expiresAt := expiresInHours.map (fun h => now + h * 3600) }
      let st1 : MarketState := { st with orders := st.orders ++ [order] }
      if lockInsertFails then (none, st1)
      else
        let lock : ResourceLock :=
          { id := newOrderId, villageId := village.id,
            lockType := lockTypeTradeOrder, referenceId := order.id,
            wood := if rt = TradeResourceType.Wood then quantity else 0,
            clay := if rt = TradeResourceType.Clay then quantity else 0,
            iron := if rt = TradeResourceType.Iron then quantity else 0,
            crop := if rt = TradeResourceType.Crop then quantity else 0,
            releasedAt := none }
        (some order, { st1 with locks := st1.locks ++ [lock] })

/-- TradeService::create_buy_order acting on the creator's gold balance:
validate_buy_order_gold compares the true i64 total_cost against the
balance, then the conditional UPDATE deducts total_cost as i32.  The
order-count limit and village-ownership checks, which precede and touch
none of the claimed state, are elided.  Returns the new balance and the
inserted order. -/
def createBuyOrder (goldBalance : Int) (userId villageId : Nat)
    (rt : TradeResourceType) (quantity pricePerUnit : Int)
    (expiresInHours : Option Int) (now : Int) (newOrderId : Nat) :
    Option (Int × TradeOrder) :=
  if ¬ validateCreateOrderRequest quantity pricePerUnit expiresInHours then none
  else
    let totalCost := quantity * pricePerUnit
    if goldBalance < totalCost then none
    else
      let w := toI32 totalCost
      if goldBalance < w then none
      else
        some (goldBalance - w,
          { id := newOrderId, userId := userId, villageId := villageId,
            orderType := TradeOrderType.Buy, resourceType := rt,
            quantity := quantity, quantityFilled := 0,
            pricePerUnit := pricePerUnit, status := TradeOrderStatus.Open,
            expiresAt := expiresInHours.map (fun h => now + h * 3600) })

/-- TradeService::cancel_order acting on the owner's gold balance and the
lock table: mark cancelled, then for a sell order release the resource
lock, for a buy order refund (quantity_remaining * price) as i32 when
positive. -/
def cancelOrder (goldBalance : Int) (locks : List ResourceLock)
    (userId : Nat) (order : TradeOrder) (now : Int) :
    Option (Int × List ResourceLock × TradeOrder) :=
  if order.userId ≠ userId then none
  else if ¬ order.canCancel then none
  else
    let remainingQuantity := order.quantityRemaining
    let order1 := { order with status := TradeOrderStatus.Cancelled }
    match order.orderType with
    | TradeOrderType.Sell =>
      some (goldBalance, (releaseResourceLock locks lockTypeTradeOrder order.id now).2, order1)
    | TradeOrderType.Buy =>
      let refundAmount := remainingQuantity * order.pricePerUnit
      let gold1 := if 0 < refundAmount then goldBalance + toI32 refundAmount
        else goldBalance
      some (gold1, locks, order1)

/-- TradeService::validate_accept_order: returns the validated fill
quantity, or none on any rejection. -/
def validateAcceptOrder (order : TradeOrder) (userId : Nat)
    (quantity : Option Int) (now : Int) : Option Int :=
  if ¬ order.canFill then none
  else if order.isExpired now then none
  else if order.userId = userId then none
  else
    let remaining := order.quantityRemaining
    let fillQuantity := quantity.getD remaining
    if fillQuantity ≤ 0 then none
    else if remaining < fillQuantity then none
    else if fillQuantity < 100 ∧ fillQuantity ≠ remaining then none
    else some fillQuantity

/-- TradeService::process_accept_sell_order: the acceptor (buyer) is
debited gold_amount as i32 by a conditional UPDATE, the order owner
credited the same value, and the resources are added to the buyer's
village capped at capacity.  Returns (buyer gold, owner gold, buyer
village). -/
def processAcceptSellOrder (buyerGold ownerGold : Int)
    (buyerVillage : Village) (order : TradeOrder)
    (quantity goldAmount : Int) : Option (Int × Int × Village) :=
  let w := toI32 goldAmount
  if buyerGold < w then none
  else
    some (buyerGold - w, ownerGold + w,
      addResourceToVillage buyerVillage order.resourceType quantity)

/-- TradeService::process_accept_buy_order: the acceptor (seller) must
have the fill available net of active locks, the resources move from the
seller village to the order owner's village (capped), and the seller is
credited gold_amount as i32 (the gold left the owner at order creation).
Returns (seller gold, seller village, owner village). -/
def processAcceptBuyOrder (sellerGold : Int)
    (sellerVillage ownerVillage : Village) (locks : List ResourceLock)
    (order : TradeOrder) (quantity goldAmount : Int) :
    Option (Int × Village × Village) :=
  let available := getVillageResource sellerVillage order.resourceType
  let locked := lockedResource locks sellerVillage.id order.resourceType
  if available - locked < quantity then none
  else
    match deductResourceFromVillage sellerVillage order.resourceType quantity with
    | none => none
    | some sv =>
      some (sellerGold + toI32 goldAmount, sv,
        addResourceToVillage ownerVillage order.resourceType quantity)

/-- The rows one accept (fill) transaction touches: the acceptor's and the
order owner's balances, their villages, the lock table, and the order. -/
structure AcceptEnv where
  acceptorId : Nat
  acceptorGold : Int
  ownerGold : Int
  acceptorVillage : Village
  ownerVillage : Village
  locks : List ResourceLock
  order : TradeOrder
  deriving DecidableEq, Repr

/-- TradeService::accept_order: validate, route on the order side, bump
quantity_filled and derive the status, and release the sell-side lock on a
full fill. -/
def acceptOrder (env : AcceptEnv) (reqQuantity : Option Int) (now : Int) :
    Option AcceptEnv :=
  match validateAcceptOrder env.order env.acceptorId reqQuantity now with
  | none => none
  | some fillQuantity =>
    if env.acceptorVillage.userId ≠ env.acceptorId then none
    else
      let goldAmount := fillQuantity * env.order.pricePerUnit
      let newQuantityFilled := env.order.quantityFilled + fillQuantity
      let newStatus := calculateOrderStatus env.order.quantity newQuantityFilled
      let order1 := { env.order with
        quantityFilled := newQuantityFilled
        status := newStatus }
      match env.order.orderType with
      | TradeOrderType.Sell =>
        match processAcceptSellOrder env.acceptorGold env.ownerGold
            env.acceptorVillage env.order fillQuantity goldAmount with
        | none => none
        | some (bg, og, bv) =>
          let locks1 :=
            if newStatus = TradeOrderStatus.Filled then
              (releaseResourceLock env.locks lockTypeTradeOrder env.order.id now).2
            else env.locks
          some { env with
            acceptorGold := bg
            ownerGold := og
            acceptorVillage := bv
            locks := locks1
            order := order1 }
      | TradeOrderType.Buy =>
        match processAcceptBuyOrder env.acceptorGold env.acceptorVillage
            env.ownerVillage env.locks env.order fillQuantity goldAmount with
        | none => none
        | some (sg, sv, ov) =>
          some { env with
            acceptorGold := sg
            acceptorVillage := sv
            ownerVillage := ov
            order := order1 }

/-- Building kinds (models/building.rs BuildingType). -/
inductive BuildingType
  | MainBuilding
  | Warehouse
  | Granary
  | Barracks
  | Stable
  | Workshop
  | Academy
  | Smithy
  | RallyPoint
  | Market
  | Embassy
  | TownHall
  | Residence
  | Palace
  | Treasury
  | TradeOffice
  | Wall
  | Woodcutter
  | ClayPit
  | IronMine
  | CropField
  deriving DecidableEq, Repr

/-- Base population of a building kind (the match table inside
BuildingType::population_at_level). -/
def BuildingType.populationBase : BuildingType → Int
  | BuildingType.Woodcutter => 2
  | BuildingType.ClayPit => 2
  | BuildingType.IronMine => 3
  | BuildingType.CropField => 0
  | BuildingType.MainBuilding => 2
  | BuildingType.Warehouse => 1
  | BuildingType.Granary => 1
  | BuildingType.RallyPoint => 1
  | BuildingType.Wall => 0
  | BuildingType.Barracks => 4
  | BuildingType.Stable => 5
  | BuildingType.Workshop => 6
  | BuildingType.Smithy => 4
  | BuildingType.Academy => 4
  | BuildingType.Market => 4
  | BuildingType.TradeOffice => 6
  | BuildingType.Embassy => 3
  | BuildingType.TownHall => 4
  | BuildingType.Residence => 1
  | BuildingType.Palace => 1
  | BuildingType.Treasury => 4

/-- BuildingType::population_at_level: 0 at level 0, else base plus
(level - 1) / 5 (Rust i32 division; levels are in [0, 20]). -/
def populationAtLevel (t : BuildingType) (level : Int) : Int :=
  if level = 0 then 0 else t.populationBase + (level - 1) / 5

/-- Building row (models/building.rs Building), times as Int seconds. -/
structure Building where
  id : Nat
  villageId : Nat
  buildingType : BuildingType
  slot : Int
  level : Int
  isUpgrading : Bool
  upgradeEndsAt : Option Int
  deriving DecidableEq, Repr

/-- Per-resource production rates of one village
(resource_service.rs ProductionRates). -/
structure ProductionRates where
  woodPerHour : Int
  clayPerHour : Int
  ironPerHour : Int
  cropPerHour : Int
  cropConsumption : Int
  netCropPerHour : Int
  deriving DecidableEq, Repr

/-- One step of the building fold in ResourceService::calculate_production:
level-0 buildings are skipped, and the production of a resource field is
added to the matching rate; every other building type adds nothing. -/
def addBuildingProduction (prodPerHour : BuildingType → Int → Int)
    (acc : Int × Int × Int × Int) (b : Building) : Int × Int × Int × Int :=
  if b.level = 0 then acc
  else
    let production := prodPerHour b.buildingType b.level
    match b.buildingType with
    | BuildingType.Woodcutter => (acc.1 + production, acc.2.1, acc.2.2.1, acc.2.2.2)
    | BuildingType.ClayPit => (acc.1, acc.2.1 + production, acc.2.2.1, acc.2.2.2)
    | BuildingType.IronMine => (acc.1, acc.2.1, acc.2.2.1 + production, acc.2.2.2)
    | BuildingType.CropField => (acc.1, acc.2.1, acc.2.2.1, acc.2.2.2 + production)
    | _ => acc

/-- ResourceService::calculate_production.  Rates start at the base 3 per
hour each, every building's production_per_hour is added to the matching
rate, crop consumption is the village population, and net crop is crop
rate minus consumption.  No multiplier of any kind is applied, and the
function reads no subscription or bonus state.  The per-building
production_per_hour (an f64 formula truncated as i32 in
models/building.rs) is abstracted as the parameter prodPerHour; no claim
depends on its values. -/
def calculateProduction (prodPerHour : BuildingType → Int → Int)
    (villagePopulation : Int) (buildings : List Building) : ProductionRates :=
  let rates := buildings.foldl (addBuildingProduction prodPerHour) (3, 3, 3, 3)
  let cropConsumption := villagePopulation
  { woodPerHour := rates.1
    clayPerHour := rates.2.1
    ironPerHour := rates.2.2.1
    cropPerHour := rates.2.2.2
    cropConsumption := cropConsumption
    netCropPerHour := rates.2.2.2 - cropConsumption }

/-- ShopRepository::get_production_multiplier: 1.0, plus 0.25 with an
active Travian Plus subscription, plus 0.25 with an active production
bonus for this (village, resource), plus 1.0 with an active Book of
Wisdom.  The three lookups read only rows with expires_at > NOW(); they
are abstracted as the three Booleans.  The f64 arithmetic is exact at
these values, modelled in Rat. -/
def getProductionMultiplier (plusActive specificBonusActive bookActive : Bool) :
    Rat :=
  let m : Rat := 1
  let m := if plusActive then m + 1 / 4 else m
  let m := if specificBonusActive then m + 1 / 4 else m
  let m := if bookActive then m + 1 else m
  m

/-- Modelled from the spec: the production rate the spec prescribes for the
resource engine, namely the base-plus-buildings rate scaled by
multiplier(user, village, r).  The engine itself (calculateProduction) is
in src; only this prescribed scaling is taken from the spec's words. -/
def specScaledRate (engineBaseRate : Int) (multiplier : Rat) : Rat :=
  (engineBaseRate : Rat) * multiplier

/-- BuildingRepository::complete_upgrade: UPDATE buildings SET level =
level + 1, is_upgrading = FALSE, upgrade_ends_at = NULL. -/
def repoCompleteUpgrade (b : Building) : Building :=
  { b with level := b.level + 1, isUpgrading := false, upgradeEndsAt := none }

/-- BuildingService::update_village_population: the population written back
is the sum of population_at_level over all of the village's buildings. -/
def updateVillagePopulation (buildings : List Building) : Int :=
  (buildings.map (fun b => populationAtLevel b.buildingType b.level)).sum

/-- ShopService::use_finish_now remaining-seconds computation for a
building target: upgrade_ends_at.map(|ends| (ends - now).max(0)).unwrap_or(0). -/
def finishNowRemaining (b : Building) (now : Int) : Int :=
  match b.upgradeEndsAt with
  | some e => max (e - now) 0
  | none => 0

/-- ShopService::use_finish_now gold cost:
((remaining_seconds as f64 / 300.0).ceil() as i32).max(1).  For the
non-negative integer remaining_seconds the f64 arithmetic is exact, so the
ceiling equals (r + 299) / 300 in integer division. -/
def finishNowCost (remainingSeconds : Int) : Int :=
  max ((remainingSeconds + 299) / 300) 1

/-- The rows ShopService::use_finish_now touches for a building target. -/
structure FinishNowState where
  userGold : Int
  building : Building
  village : Village
  deriving DecidableEq, Repr

/-- ShopService::use_finish_now on a building target: reject if the
building is not upgrading or the village is not owned by the user; charge
finishNowCost of the remaining seconds against the balance; then call
BuildingRepository::complete_upgrade directly — the village row
(storage capacities, population) is not touched on this path. -/
def useFinishNow (st : FinishNowState) (userId : Nat) (now : Int) :
    Option FinishNowState :=
  if ¬ st.building.isUpgrading then none
  else
    let remainingSeconds := finishNowRemaining st.building now
    if st.village.userId ≠ userId then none
    else
      let goldCost := finishNowCost remainingSeconds
      if st.userGold < goldCost then none
      else
        some { st with
          userGold := st.userGold - goldCost
          building := repoCompleteUpgrade st.building }

/-- Uuid::nil(), in the Nat model of UUIDs. -/
def nilUuid : Nat := 0

/-- Troop training queue entry (models/troop.rs TroopQueue, absent from
src; fields reconstructed from every access the services make: id,
village_id, troop_type, count, started_at, ends_at).  Troop types are
modelled as Nat tags since the enum lives in the absent models/troop.rs. -/
structure TroopQueueEntry where
  id : Nat
  villageId : Nat
  troopType : Nat
  count : Int
  startedAt : Int
  endsAt : Int
  deriving DecidableEq, Repr

/-- Garrison row (models/troop.rs Troop, absent from src): per
(village, troop type), the owned count and the count currently in the
village. -/
structure Troop where
  villageId : Nat
  troopType : Nat
  count : Int
  inVillage : Int
  deriving DecidableEq, Repr

/-- Troop definition row (models/troop.rs TroopDefinition, absent from
src): per-unit costs, per-unit training time, and the required building. -/
structure TroopDefinition where
  troopType : Nat
  woodCost : Int
  clayCost : Int
  ironCost : Int
  cropCost : Int
  trainingTimeSeconds : Int
  requiredBuilding : BuildingType
  requiredBuildingLevel : Int
  deriving DecidableEq, Repr

/-- Modelled from the spec: TroopRepository::get_queue_by_village
(troop_repo.rs is absent from src) selects the training entries of one
village. -/
def getQueueByVillage (queue : List TroopQueueEntry) (villageId : Nat) :
    List TroopQueueEntry :=
  queue.filter (fun e => e.villageId = villageId)

/-- Modelled from the spec: TroopRepository::get_last_queue_end_time
(troop_repo.rs is absent from src) returns the ends_at of the
latest-ending training entry of the village, or none when the queue is
empty.  The caller in troop_service.rs substitutes now for none. -/
def getLastQueueEndTime (queue : List TroopQueueEntry) (villageId : Nat) :
    Option Int :=
  ((getQueueByVillage queue villageId).map (fun e => e.endsAt)).max?

/-- Modelled from the spec: TroopRepository::remove_from_queue deletes the
entry with the given id. -/
def removeFromQueue (queue : List TroopQueueEntry) (queueId : Nat) :
    List TroopQueueEntry :=
  queue.filter (fun e => e.id ≠ queueId)

/-- Modelled from the spec: TroopRepository::add_troops merges count troops
into the (village, troop type) garrison row, inserting it when absent
(garrison merge: counts add). -/
def addTroops (troops : List Troop) (villageId troopType : Nat)
    (count : Int) : List Troop :=
  if troops.any (fun t => t.villageId = villageId && t.troopType = troopType) then
    troops.map (fun t =>
      if t.villageId = villageId && t.troopType = troopType then
        { t with count := t.count + count, inVillage := t.inVillage + count }
      else t)
  else
    troops ++ [{ villageId := villageId, troopType := troopType,
                 count := count, inVillage := count }]

/-- TroopService::check_training_requirements level lookup: the maximum
level over the village's buildings of the required type, 0 when none. -/
def maxBuildingLevel (buildings : List Building) (t : BuildingType) : Int :=
  (((buildings.filter (fun b => b.buildingType = t)).map (fun b => b.level)).max?).getD 0

/-- TroopService::train_troops: reject non-positive counts, check the
required building level, compute total cost and total time as per-unit
times count, check and deduct the four resources (deduct_resources of the
absent village_repo.rs modelled from the spec as plain subtraction), then
append a queue entry with started_at =
get_last_queue_end_time(village).unwrap_or(now) — the source applies no
max against now — and ends_at = started_at + total_time. -/
def trainTroops (buildings : List Building) (queue : List TroopQueueEntry)
    (village : Village) (d : TroopDefinition) (count : Int) (now : Int)
    (newId : Nat) : Option (Village × TroopQueueEntry) :=
  if count ≤ 0 then none
  else if maxBuildingLevel buildings d.requiredBuilding < d.requiredBuildingLevel then
    none
  else
    let costWood := d.woodCost * count
    let costClay := d.clayCost * count
    let costIron := d.ironCost * count
    let costCrop := d.cropCost * count
    if village.wood < costWood ∨ village.clay < costClay ∨
        village.iron < costIron ∨ village.crop < costCrop then none
    else
      let village1 := { village with
        wood := village.wood - costWood
        clay := village.clay - costClay
        iron := village.iron - costIron
        crop := village.crop - costCrop }
      let startedAt := (getLastQueueEndTime queue village.id).getD now
      let endsAt := startedAt + d.trainingTimeSeconds * count
      some (village1,
        { id := newId, villageId := village.id, troopType := d.troopType,
          count := count, startedAt := startedAt, endsAt := endsAt })

/-- Garrisons and training queue, the state TroopService::complete_training
can touch. -/
structure TroopState where
  troops : List Troop
  queue : List TroopQueueEntry
  deriving DecidableEq, Repr

/-- TroopService::complete_training(pool, queue_id): fetches the queue OF
THE NIL VILLAGE ID (get_queue_by_village(pool, Uuid::nil())), searches it
for the entry, and only on a hit adds the troops and removes the entry;
otherwise it returns Ok with nothing changed. -/
def completeTraining (st : TroopState) (queueId : Nat) : TroopState :=
  let queue := getQueueByVillage st.queue nilUuid
  match queue.find? (fun e => e.id = queueId) with
  | some entry =>
    { troops := addTroops st.troops entry.villageId entry.troopType entry.count
      queue := removeFromQueue st.queue queueId }
  | none => st

/-- Starvation query row (background_jobs.rs TroopWithConsumption): the
troops JOIN troop_definitions result for one village. -/
structure TroopWithConsumption where
  villageId : Nat
  troopType : Nat
  inVillage : Int
  cropConsumption : Int
  deriving DecidableEq, Repr

/-- Modelled from the spec: TroopRepository::kill_troops (troop_repo.rs is
absent from src) removes the killed troops from the (village, troop type)
row, decrementing in_village. -/
def killTroops (troops : List TroopWithConsumption) (troopType : Nat)
    (count : Int) : List TroopWithConsumption :=
  troops.map (fun t =>
    if t.troopType = troopType then { t with inVillage := t.inVillage - count }
    else t)

/-- One starving village's step of background_jobs.rs process_starvation:
the query keeps rows with in_village > 0 ordered by crop_consumption
descending and the code takes the first row, i.e. an entry of maximal
crop_consumption (modelled with List.argmax); when no row qualifies the
village is skipped.  kill_count = 1.min(victim.in_village), and when
positive that many troops of the victim's type are killed.  Returns the
new garrison rows and the number killed. -/
def processStarvationVillage (troops : List TroopWithConsumption) :
    List TroopWithConsumption × Int :=
  let present := troops.filter (fun t => 0 < t.inVillage)
  match present.argmax (fun t => t.cropConsumption) with
  | none => (troops, 0)
  | some victim =>
    let killCount := min 1 victim.inVillage
    if 0 < killCount then (killTroops troops victim.troopType killCount, killCount)
    else (troops, 0)

/-! Helper lemmas shared by several claims. -/

theorem le_max?_of_mem {l : List Int} {a m : Int} (ha : a ∈ l)
    (hm : l.max? = some m) : a ≤ m := by
  have : Std.Antisymm (α := Int) (· ≤ ·) := ⟨fun h1 h2 => le_antisymm h1 h2⟩
  rw [List.max?_eq_some_iff] at hm
  · exact hm.2 a ha
  all_goals simp [le_total]

theorem map_noop {α : Type} (l : List α) (f : α → α) (h : ∀ a ∈ l, f a = a) :
    l.map f = l := by
  induction l with
  | nil => rfl
  | cons a as ih =>
    simp only [List.map_cons, h a (by simp), List.cons.injEq, true_and]
    exact ih (fun b hb => h b (by simp [hb]))

/-! Claim C10 — releasing a resource lock is idempotent. -/

/-- Claim C10: release_resource_lock(_tx) updates only the active lock
(released_at IS NULL) for a (lock_type, reference_id): when an active lock
exists, the first call returns it with released_at set; after any first
call, a second call for the same reference returns none and leaves the
table — in particular every already-set released_at — entirely unchanged,
so a double cancel or expire never releases (hence never refunds) twice. -/
theorem release_resource_lock_idempotent (locks : List ResourceLock)
    (lt : String) (ref : Nat) (t1 t2 : Int)
    (hactive : ∃ l ∈ locks, lockActiveFor l lt ref) :
    (releaseResourceLock locks lt ref t1).1.isSome = true ∧
    (∀ l, (releaseResourceLock locks lt ref t1).1 = some l →
      l.releasedAt = some t1) ∧
    releaseResourceLock (releaseResourceLock locks lt ref t1).2 lt ref t2 =
      (none, (releaseResourceLock locks lt ref t1).2) := by
  obtain ⟨l0, hl0, hp0⟩ := hactive
  have hmemf : l0 ∈ locks.filter (fun l => lockActiveFor l lt ref) :=
    List.mem_filter.mpr ⟨hl0, hp0⟩
  have hne : locks.filter (fun l => lockActiveFor l lt ref) ≠ [] :=
    List.ne_nil_of_mem hmemf
  refine ⟨?_, ?_, ?_⟩
  · rcases hh : (locks.filter (fun l => lockActiveFor l lt ref)).head? with _ | l1
    · exact absurd (List.head?_eq_none_iff.mp hh) hne
    · simp [releaseResourceLock, hh]
  · intro l hl
    rcases hh : (locks.filter (fun l => lockActiveFor l lt ref)).head? with _ | l1
    · exact absurd (List.head?_eq_none_iff.mp hh) hne
    · simp only [releaseResourceLock, hh, Option.map_some', Option.some.injEq] at hl
      rw [← hl]
  · have hall : ∀ l ∈ (releaseResourceLock locks lt ref t1).2,
        ¬ lockActiveFor l lt ref := by
      intro l hl
      simp only [releaseResourceLock, List.mem_map] at hl
      obtain ⟨l2, _, hl2⟩ := hl
      by_cases hc : lockActiveFor l2 lt ref
      · rw [if_pos hc] at hl2
        rw [← hl2]
        simp [lockActiveFor]
      · rw [if_neg hc] at hl2
        rw [← hl2]
        exact hc
    have hfil : ((releaseResourceLock locks lt ref t1).2).filter
        (fun l => lockActiveFor l lt ref) = [] :=
      List.filter_eq_nil_iff.mpr (by simpa using hall)
    have hmap : ((releaseResourceLock locks lt ref t1).2).map
        (fun l => if lockActiveFor l lt ref then { l with releasedAt := some t2 }
          else l) = (releaseResourceLock locks lt ref t1).2 :=
      map_noop _ _ (fun l hl => if_neg (hall l hl))
    show ((((releaseResourceLock locks lt ref t1).2).filter
        (fun l => lockActiveFor l lt ref)).head?.map
        (fun l => { l with releasedAt := some t2 }), _) = _
    rw [hfil, hmap]
    rfl

/-- Witness for claim C10: a table with one active trade_order lock for
reference 4: the first release returns it released at time 9, and the
second release is a no-op. -/
theorem release_resource_lock_idempotent_witness :
    (releaseResourceLock
        [{ id := 1, villageId := 1, lockType := "trade_order",
           referenceId := 4, wood := 600, clay := 0, iron := 0, crop := 0,
           releasedAt := none }] "trade_order" 4 9).1.isSome = true ∧
    (∀ l, (releaseResourceLock
        [{ id := 1, villageId := 1, lockType := "trade_order",
           referenceId := 4, wood := 600, clay := 0, iron := 0, crop := 0,
           releasedAt := none }] "trade_order" 4 9).1 = some l →
      l.releasedAt = some 9) ∧
    releaseResourceLock (releaseResourceLock
        [{ id := 1, villageId := 1, lockType := "trade_order",
           referenceId := 4, wood := 600, clay := 0, iron := 0, crop := 0,
           releasedAt := none }] "trade_order" 4 9).2 "trade_order" 4 11 =
      (none, (releaseResourceLock
        [{ id := 1, villageId := 1, lockType := "trade_order",
           referenceId := 4, wood := 600, clay := 0, iron := 0, crop := 0,
           releasedAt := none }] "trade_order" 4 9).2) :=
  release_resource_lock_idempotent _ "trade_order" 4 9 11
    ⟨{ id := 1, villageId := 1, lockType := "trade_order", referenceId := 4,
       wood := 600, clay := 0, iron := 0, crop := 0, releasedAt := none },
     by simp, by decide⟩

/-! Claim C9 — TroopService::complete_training is a no-op. -/

/-- Claim C9: TroopService::complete_training searches for the entry in the
training queue of the nil village id, so whenever no queue entry carries
the nil village id (villages always have real ids) it finds nothing and
returns with the garrisons and the queue unchanged, for every queue_id. -/
theorem complete_training_noop (st : TroopState) (queueId : Nat)
    (h : ∀ e ∈ st.queue, e.villageId ≠ nilUuid) :
    completeTraining st queueId = st := by
  unfold completeTraining
  have hq : getQueueByVillage st.queue nilUuid = [] := by
    rw [getQueueByVillage]
    exact List.filter_eq_nil_iff.mpr (by simpa using h)
  rw [hq]
  rfl

/-- Witness for claim C9: a populated state whose queue entries live in
villages 1 and 2; complete_training of any id (here 1, an existing entry's
id) changes nothing. -/
theorem complete_training_noop_witness :
    completeTraining
      { troops := [{ villageId := 1, troopType := 5, count := 3, inVillage := 3 }]
        queue := [{ id := 1, villageId := 1, troopType := 5, count := 2,
                    startedAt := 0, endsAt := 5 },
                  { id := 2, villageId := 2, troopType := 6, count := 1,
                    startedAt := 0, endsAt := 9 }] } 1 =
      { troops := [{ villageId := 1, troopType := 5, count := 3, inVillage := 3 }]
        queue := [{ id := 1, villageId := 1, troopType := 5, count := 2,
                    startedAt := 0, endsAt := 5 },
                  { id := 2, villageId := 2, troopType := 6, count := 1,
                    startedAt := 0, endsAt := 9 }] } :=
  complete_training_noop _ 1 (by decide)

/-! Claim C4 — training enqueue schedule. -/

/-- Training-queue fixture for claim C4: one existing entry that already
ended at t = 5. -/
def c4Queue : List TroopQueueEntry :=
  [{ id := 1, villageId := 1, troopType := 5, count := 1, startedAt := 0,
     endsAt := 5 }]

/-- Village fixture for claim C4. -/
def c4Village : Village :=
  { id := 1, userId := 1, wood := 1000, clay := 1000, iron := 1000,
    crop := 1000, warehouseCapacity := 2000, granaryCapacity := 2000,
    population := 0, resourcesUpdatedAt := 0 }

/-- Troop-definition fixture for claim C4: 10 of each resource and 10
seconds per unit, no building requirement. -/
def c4Def : TroopDefinition :=
  { troopType := 5, woodCost := 10, clayCost := 10, ironCost := 10,
    cropCost := 10, trainingTimeSeconds := 10, requiredBuilding :=
    BuildingType.Barracks, requiredBuildingLevel := 0 }

/-- Counterexample to claim C4 as stated: enqueueing at now = 10 into a
queue whose last entry ended at 5 yields started_at = 5, not
max(now, last.ends_at) = 10 — the source takes
get_last_queue_end_time(village).unwrap_or(now) and never compares it
against now. -/
theorem train_troops_startedAt_counterexample :
    ((trainTroops [] c4Queue c4Village c4Def 1 10 2).map
      (fun r => r.2.startedAt)) = some 5 ∧ (5 : Int) ≠ max 10 5 := by
  decide

/-- Claim C4 as amended: every successful training enqueue appends an
entry with started_at equal to the ends_at of the latest-ending existing
queue entry of the village when one exists — even when that instant is
already in the past — and to now otherwise, and with ends_at = started_at
+ count × per-unit training time; the new entry starts no earlier than
every existing entry of the village ends, which keeps the per-village
training queue strictly FIFO. -/
theorem train_troops_schedule (buildings : List Building)
    (queue : List TroopQueueEntry) (village : Village) (d : TroopDefinition)
    (count now : Int) (newId : Nat) (v1 : Village) (entry : TroopQueueEntry)
    (h : trainTroops buildings queue village d count now newId =
      some (v1, entry)) :
    entry.startedAt = (getLastQueueEndTime queue village.id).getD now ∧
    entry.endsAt = entry.startedAt + d.trainingTimeSeconds * count ∧
    (∀ e ∈ queue, e.villageId = village.id → e.endsAt ≤ entry.startedAt) := by
  unfold trainTroops at h
  split at h
  · exact absurd h (by simp)
  split at h
  · exact absurd h (by simp)
  dsimp only at h
  split at h
  · exact absurd h (by simp)
  simp only [Option.some.injEq, Prod.mk.injEq] at h
  obtain ⟨-, hentry⟩ := h
  subst hentry
  refine ⟨rfl, rfl, ?_⟩
  intro e he hev
  show e.endsAt ≤ (getLastQueueEndTime queue village.id).getD now
  have hmem : e.endsAt ∈ (getQueueByVillage queue village.id).map
      (fun e => e.endsAt) :=
    List.mem_map_of_mem _ (List.mem_filter.mpr ⟨he, by simp [hev]⟩)
  rcases hmax : getLastQueueEndTime queue village.id with _ | m
  · rw [getLastQueueEndTime] at hmax
    rw [List.max?_eq_none_iff.mp hmax] at hmem
    exact absurd hmem (List.not_mem_nil _)
  · rw [getLastQueueEndTime] at hmax
    simpa using le_max?_of_mem hmem hmax

/-- Witness for the amended claim C4 at the counterexample fixture: the
new entry starts at 5 (the stale last ends_at), ends at 15, and no
existing entry of the village ends after it. -/
theorem train_troops_schedule_witness :
    ((5 : Int) = (getLastQueueEndTime c4Queue 1).getD 10 ∧
      (15 : Int) = 5 + 10 * 1 ∧
      (∀ e ∈ c4Queue, e.villageId = 1 → e.endsAt ≤ (5 : Int))) :=
  train_troops_schedule [] c4Queue c4Village c4Def 1 10 2
    { c4Village with wood := 990, clay := 990, iron := 990, crop := 990 }
    { id := 2, villageId := 1, troopType := 5, count := 1, startedAt := 5,
      endsAt := 15 }
    (by decide)

/-! Claim C1 — sell-order creation atomicity. -/

/-- Village fixture for claim C1: 1000 wood, no locks. -/
def c1Village : Village :=
  { id := 1, userId := 1, wood := 1000, clay := 0, iron := 0, crop := 0,
    warehouseCapacity := 2000, granaryCapacity := 2000, population := 0,
    resourcesUpdatedAt := 0 }

/-- Claim C1 fails on the code: the order INSERT runs on the pool handle
and commits on its own, outside the transaction the function opens, so
when the resource-lock INSERT fails (and the transaction rolls back) the
committed state holds the order and no active trade_order lock for it —
the claimed both-or-neither property is violated.  Evaluated at a valid
100-wood sell order whose lock INSERT fails. -/
theorem sell_order_creation_not_atomic :
    (createSellOrder { orders := [], locks := [] } 1 c1Village
        TradeResourceType.Wood 100 5 none 0 7 true).1 = none ∧
    ((createSellOrder { orders := [], locks := [] } 1 c1Village
        TradeResourceType.Wood 100 5 none 0 7 true).2.orders.map
      (fun o => o.id)) = [7] ∧
    ((createSellOrder { orders := [], locks := [] } 1 c1Village
        TradeResourceType.Wood 100 5 none 0 7 true).2.locks.filter
      (fun l => lockActiveFor l lockTypeTradeOrder 7)) = [] := by
  decide

/-! Claim C2 — production multiplier. -/

/-- Claim C2 fails on the code: ResourceService::calculate_production
computes the base-plus-buildings rates and never applies any multiplier
(it does not read subscription or bonus state at all; the matching
ShopRepository::get_production_multiplier with the claimed 1 + 0.25 +
0.25 + 1.0 formula has no caller).  Evaluated at a village with no
resource-field buildings and an active Book of Wisdom: the engine rate is
3 while the claimed scaled rate is 3 × 2.0 = 6.  The last conjunct checks
that the dormant multiplier function does follow the claimed formula. -/
theorem production_multiplier_not_applied :
    (calculateProduction (fun _ _ => 0) 0 []).woodPerHour = 3 ∧
    getProductionMultiplier false false true = 2 ∧
    ((calculateProduction (fun _ _ => 0) 0 []).woodPerHour : Rat) ≠
      specScaledRate (calculateProduction (fun _ _ => 0) 0 []).woodPerHour
        (getProductionMultiplier false false true) ∧
    (∀ p s b : Bool, getProductionMultiplier p s b =
      1 + (if p then (1 : Rat) / 4 else 0) + (if s then (1 : Rat) / 4 else 0)
        + (if b then (1 : Rat) else 0)) := by
  refine ⟨by decide, ?_, ?_, ?_⟩
  · norm_num [getProductionMultiplier]
  · show ((3 : Int) : Rat) ≠ specScaledRate 3 (getProductionMultiplier false false true)
    norm_num [specScaledRate, getProductionMultiplier]
  · intro p s b
    cases p <;> cases s <;> cases b <;> norm_num [getProductionMultiplier]

/-! Claim C5 — gold conservation over fills. -/

/-- Accept fixture for claim C5: a 0-gold buyer (id 2) fills a sell order
of 300000 wood at 10000 gold per unit owned by user 1. -/
def c5Env : AcceptEnv :=
  { acceptorId := 2
    acceptorGold := 0
    ownerGold := 2000000000
    acceptorVillage :=
      { id := 2, userId := 2, wood := 0, clay := 0, iron := 0, crop := 0,
        warehouseCapacity := 1000000, granaryCapacity := 1000000,
        population := 0, resourcesUpdatedAt := 0 }
    ownerVillage :=
      { id := 1, userId := 1, wood := 0, clay := 0, iron := 0, crop := 0,
        warehouseCapacity := 1000000, granaryCapacity := 1000000,
        population := 0, resourcesUpdatedAt := 0 }
    locks := [{ id := 1, villageId := 1, lockType := "trade_order",
                referenceId := 1, wood := 300000, clay := 0, iron := 0,
                crop := 0, releasedAt := none }]
    order := { id := 1, userId := 1, villageId := 1,
               orderType := TradeOrderType.Sell,
               resourceType := TradeResourceType.Wood, quantity := 300000,
               quantityFilled := 0, pricePerUnit := 10000,
               status := TradeOrderStatus.Open, expiresAt := none } }

/-- Claim C5 fails on the code: the fill amount is bound as gold_amount as
i32, which truncates.  Filling 300000 units at 10000 gold per unit (both
within creation validation, checked by the last conjunct) carries
gold_amount = 3·10⁹, truncated to −1294967296: a buyer with 0 gold passes
the conditional debit and ends with 1294967296 gold — gaining gold — where
the claim says the buyer is debited exactly 3·10⁹.  (The owner is credited
the same truncated value, so the two balances still move symmetrically.) -/
theorem accept_sell_gold_truncated :
    ((acceptOrder c5Env none 0).map (fun e => e.acceptorGold)) =
      some 1294967296 ∧
    ((acceptOrder c5Env none 0).map (fun e => e.ownerGold)) =
      some (2000000000 - 1294967296) ∧
    (1294967296 : Int) ≠ 0 - 300000 * 10000 ∧
    toI32 (300000 * 10000) = -1294967296 ∧
    validateCreateOrderRequest 300000 10000 none = true := by
  decide

/-! Claim C7 — finish-now. -/

/-- ShopService::use_finish_now fixture for claim C7: a level-0 Woodcutter
upgrade with 1020 seconds remaining, user with 10 gold, village population
stored as 0. -/
def c7State : FinishNowState :=
  { userGold := 10
    building := { id := 3, villageId := 1,
                  buildingType := BuildingType.Woodcutter, slot := 101,
                  level := 0, isUpgrading := true, upgradeEndsAt := some 1020 }
    village := { id := 1, userId := 1, wood := 0, clay := 0, iron := 0,
                 crop := 0, warehouseCapacity := 800, granaryCapacity := 800,
                 population := 0, resourcesUpdatedAt := 0 } }

/-- Claim C7 fails on the code in its last part: with 1020 seconds
remaining the feature does charge max(1, ceil(1020/300)) = 4 gold and
increments the level and clears the upgrade flags — but it invokes
BuildingRepository::complete_upgrade directly instead of
BuildingService::complete_upgrade, so the village's storage capacities and
population are NOT recomputed: the stored population stays 0 although the
recompute the claim prescribes (updateVillagePopulation over the upgraded
building) yields 2. -/
theorem finish_now_skips_recompute :
    ((useFinishNow c7State 1 0).map (fun s =>
      (s.userGold, s.building.level, s.building.isUpgrading,
        s.village.population, s.village.warehouseCapacity))) =
      some (6, 1, false, 0, 800) ∧
    finishNowCost 1020 = 4 ∧
    updateVillagePopulation [repoCompleteUpgrade c7State.building] = 2 ∧
    (0 : Int) ≠ 2 := by
  decide

/-! Claim C6 — buy-order create-then-cancel round trip. -/

/-- Claim C6: for every user and every buy order the code accepts (valid
request, sufficient balance — the balance is an i32 column, whence the
gold < 2³¹ hypothesis), creating the order deducts quantity ×
price_per_unit from gold_balance and cancelling it with no fills refunds
the same amount, so the balance returns exactly to its starting value. -/
theorem buy_create_cancel_gold_conserved (gold : Int)
    (userId villageId newOrderId : Nat) (rt : TradeResourceType)
    (q p : Int) (e : Option Int) (createNow cancelNow : Int) (gold1 : Int)
    (order : TradeOrder)
    (h : createBuyOrder gold userId villageId rt q p e createNow newOrderId =
      some (gold1, order))
    (hg : gold < 2 ^ 31) :
    ((cancelOrder gold1 [] userId order cancelNow).map (fun r => r.1)) =
      some gold ∧
    gold1 = gold - q * p := by
  unfold createBuyOrder at h
  split at h
  · exact absurd h (by simp)
  next hval =>
    rw [not_not] at hval
    dsimp only at h
    split at h
    · exact absurd h (by simp)
    next hng =>
      split at h
      · exact absurd h (by simp)
      next hnw =>
        simp only [Option.some.injEq, Prod.mk.injEq] at h
        obtain ⟨hg1, horder⟩ := h
        subst horder
        simp only [validateCreateOrderRequest, Bool.and_eq_true,
          decide_eq_true_eq] at hval
        have hq100 : (100 : Int) ≤ q := hval.1.1.1.1
        have hp1 : (1 : Int) ≤ p := hval.1.1.2
        have hpos : 0 < q * p := mul_pos (by omega) (by omega)
        have hle : q * p ≤ gold := by omega
        have ht : toI32 (q * p) = q * p := toI32_eq_self (by omega) (by omega)
        rw [ht] at hg1
        refine ⟨?_, hg1.symm⟩
        simp only [cancelOrder, TradeOrder.canCancel,
          TradeOrder.quantityRemaining, ne_eq]
        norm_num [hpos, ht]
        omega

/-- Witness for claim C6: gold 2000000, a 100-unit buy order at price 1;
creation leaves 1999900 and cancellation restores 2000000. -/
theorem buy_create_cancel_gold_conserved_witness :
    ((cancelOrder 1999900 [] 1
        { id := 9, userId := 1, villageId := 1,
          orderType := TradeOrderType.Buy,
          resourceType := TradeResourceType.Wood, quantity := 100,
          quantityFilled := 0, pricePerUnit := 1,
          status := TradeOrderStatus.Open, expiresAt := none } 50).map
      (fun r => r.1)) = some 2000000 ∧
    (1999900 : Int) = 2000000 - 100 * 1 :=
  buy_create_cancel_gold_conserved 2000000 1 1 9 TradeResourceType.Wood
    100 1 none 0 50 1999900
    { id := 9, userId := 1, villageId := 1, orderType := TradeOrderType.Buy,
      resourceType := TradeResourceType.Wood, quantity := 100,
      quantityFilled := 0, pricePerUnit := 1,
      status := TradeOrderStatus.Open, expiresAt := none }
    (by decide) (by decide)

/-! Claim C8 — starvation never drives troop counts negative. -/

/-- Claim C8: per starving village (the job only visits villages with
crop ≤ 0) the starvation step keeps every in_village count non-negative
(given per-(village, type) rows, which the store keys uniquely), kills at
most one troop, is a no-op when no troop is present, and when it kills,
the victim type is present (in_village > 0) and of maximal per-unit crop
consumption among the present types. -/
theorem starvation_step_safe (troops : List TroopWithConsumption)
    (h0 : ∀ t ∈ troops, 0 ≤ t.inVillage)
    (huniq : troops.Pairwise (fun a b => a.troopType ≠ b.troopType)) :
    (∀ t ∈ (processStarvationVillage troops).1, 0 ≤ t.inVillage) ∧
    (processStarvationVillage troops).2 ≤ 1 ∧
    ((∀ t ∈ troops, t.inVillage ≤ 0) →
      processStarvationVillage troops = (troops, 0)) ∧
    ((processStarvationVillage troops).2 = 1 →
      ∃ v ∈ troops, 0 < v.inVillage ∧
        (∀ t ∈ troops, 0 < t.inVillage →
          t.cropConsumption ≤ v.cropConsumption) ∧
        (processStarvationVillage troops).1 = killTroops troops v.troopType 1) := by
  rcases harg : (troops.filter (fun t => 0 < t.inVillage)).argmax
      (fun t => t.cropConsumption) with _ | victim
  · have hres : processStarvationVillage troops = (troops, 0) := by
      unfold processStarvationVillage
      dsimp only
      rw [harg]
    rw [hres]
    exact ⟨h0, by omega, fun _ => rfl, by simp⟩
  · have hvmemf : victim ∈ troops.filter (fun t => 0 < t.inVillage) :=
      List.argmax_mem harg
    have hvmem : victim ∈ troops := (List.mem_filter.mp hvmemf).1
    have hvpos : 0 < victim.inVillage := by
      have := (List.mem_filter.mp hvmemf).2
      simpa using this
    have hmin : min 1 victim.inVillage = 1 := min_eq_left (by omega)
    have hres : processStarvationVillage troops =
        (killTroops troops victim.troopType 1, 1) := by
      unfold processStarvationVillage
      dsimp only
      rw [harg]
      simp [hmin]
    rw [hres]
    have hsame : ∀ t ∈ troops, t.troopType = victim.troopType → t = victim := by
      intro t ht htt
      by_contra hne
      exact List.Pairwise.forall (fun {a b} hab => (hab ∘ Eq.symm : ¬_))
        huniq ht hvmem hne htt
    refine ⟨?_, le_refl 1, ?_, ?_⟩
    · intro t ht
      simp only [killTroops, List.mem_map] at ht
      obtain ⟨t0, ht0, ht0e⟩ := ht
      by_cases hc : t0.troopType = victim.troopType
      · have : t0 = victim := hsame t0 ht0 hc
        subst this
        rw [if_pos (by simp [hc])] at ht0e
        rw [← ht0e]
        simpa using hvpos
      · rw [if_neg (by simpa using hc)] at ht0e
        rw [← ht0e]
        exact h0 t0 ht0
    · intro hall
      exact absurd (hall victim hvmem) (by omega)
    · intro _
      refine ⟨victim, hvmem, hvpos, ?_, rfl⟩
      intro t ht htpos
      exact List.le_of_mem_argmax
        (List.mem_filter.mpr ⟨ht, by simpa using htpos⟩) harg

/-- Witness for claim C8 at the spec's starvation scenario: infantry 5 and
spearman 3 at consumption 1, one war elephant at consumption 4, crop ≤ 0;
the step kills exactly the one elephant and no count goes negative. -/
theorem starvation_step_safe_witness :
    (∀ t ∈ (processStarvationVillage
      [{ villageId := 1, troopType := 0, inVillage := 5, cropConsumption := 1 },
       { villageId := 1, troopType := 1, inVillage := 3, cropConsumption := 1 },
       { villageId := 1, troopType := 2, inVillage := 1, cropConsumption := 4 }]).1,
      0 ≤ t.inVillage) ∧
    (processStarvationVillage
      [{ villageId := 1, troopType := 0, inVillage := 5, cropConsumption := 1 },
       { villageId := 1, troopType := 1, inVillage := 3, cropConsumption := 1 },
       { villageId := 1, troopType := 2, inVillage := 1, cropConsumption := 4 }]).2 ≤ 1 ∧
    (processStarvationVillage
      [{ villageId := 1, troopType := 0, inVillage := 5, cropConsumption := 1 },
       { villageId := 1, troopType := 1, inVillage := 3, cropConsumption := 1 },
       { villageId := 1, troopType := 2, inVillage := 1, cropConsumption := 4 }]) =
      ([{ villageId := 1, troopType := 0, inVillage := 5, cropConsumption := 1 },
        { villageId := 1, troopType := 1, inVillage := 3, cropConsumption := 1 },
        { villageId := 1, troopType := 2, inVillage := 0, cropConsumption := 4 }], 1) :=
  ⟨(starvation_step_safe _ (by decide) (by decide)).1,
   (starvation_step_safe _ (by decide) (by decide)).2.1,
   by decide⟩

end Ivory
